import Mathlib

/-!
Verification development for the OpenEngine SDLFont extension.

The repository contains two revisions of the same wrapper:
* revision A: src/Resources/SDLFont.cpp (SetSize / SetStyle / SetColor,
  fixed-size textures carry a background colour bgcolr);
* revision B: src/unnamed/part_000 (SetPointSize / SetFontStyle /
  SetFontColor, fixed-size textures are zero-filled, no background colour).

External SDL / SDL_ttf library calls (TTF_OpenFont, TTF_RenderText_Blended,
SDL_ConvertSurface, SDL_BlitSurface) are modelled as an oracle environment
SDLEnv; everything the repository itself computes is translated directly
from the C++ source.  C `float` arithmetic on colour channels is modelled
over the rationals (the operations used - fmin, roundf, multiplication by
255 - are exact on the small literal inputs considered here).
-/

namespace OESDLFont

/-- Colour triple, models OpenEngine Math::Vector<3,float>. -/
structure Vec3 where
  x : Rat
  y : Rat
  z : Rat
  deriving DecidableEq, Repr

/-- 4-component colour, models Math::Vector<4,float> (RGBA). -/
structure Vec4 where
  x : Rat
  y : Rat
  z : Rat
  w : Rat
  deriving DecidableEq, Repr

/-- C roundf: round half away from zero. -/
def roundf (q : Rat) : Int :=
  if 0 ≤ q then ⌊q + 1/2⌋ else -⌊-q + 1/2⌋

/-- Conversion of a C int to Uint8 (reduction mod 256, as the C standard
prescribes for conversions to unsigned types). -/
def toUint8 (i : Int) : Nat := (i % 256).toNat

/-- SDL_Color as used by the font (r, g, b Uint8 fields). -/
structure SDLColor where
  r : Nat
  g : Nat
  b : Nat
  deriving DecidableEq, Repr

/-- The fields of SDL_PixelFormat that SDLFont::Render sets (palette,
colorkey, alpha and the loss fields are always zero in the source and are
omitted). -/
structure SDLPixelFormat where
  BitsPerPixel : Nat
  BytesPerPixel : Nat
  Rmask : Nat
  Rshift : Nat
  Gmask : Nat
  Gshift : Nat
  Bmask : Nat
  Bshift : Nat
  Amask : Nat
  Ashift : Nat
  deriving DecidableEq, Repr

/-- The pixel format built at the top of SDLFont::Render (identical in both
revisions).  The source selects the branch with the compile-time test
SDL_BYTEORDER == SDL_BIG_ENDIAN; here the host byte order is a parameter. -/
def makeFormat (bigEndian : Bool) : SDLPixelFormat :=
  if bigEndian then
    { BitsPerPixel := 32, BytesPerPixel := 4
      Rmask := 0xFF000000, Rshift := 0
      Gmask := 0x00FF0000, Gshift := 8
      Bmask := 0x0000FF00, Bshift := 16
      Amask := 0x000000FF, Ashift := 24 }
  else
    { BitsPerPixel := 32, BytesPerPixel := 4
      Rmask := 0x000000FF, Rshift := 24
      Gmask := 0x0000FF00, Gshift := 16
      Bmask := 0x00FF0000, Bshift := 8
      Amask := 0xFF000000, Ashift := 0 }

/-- Byte layout of a Uint32 value stored into memory by the host
(SDL_FillRect stores the 32-bit pixel value in native byte order). -/
def pixelBytes (bigEndian : Bool) (c : Nat) : List Nat :=
  if bigEndian then
    [c / 16777216 % 256, c / 65536 % 256, c / 256 % 256, c % 256]
  else
    [c % 256, c / 256 % 256, c / 65536 % 256, c / 16777216 % 256]

/-- An SDL_Surface as far as this code observes it: dimensions, pixel depth
and the raw pixel bytes. -/
structure Surface where
  w : Nat
  h : Nat
  bitsPerPixel : Nat
  pixels : List Nat
  deriving DecidableEq, Repr

/-- Oracle for the external SDL / SDL_ttf calls.  raster models
TTF_RenderText_Blended on the given text (none = failure), convert models
SDL_ConvertSurface into the canonical RGBA format, blit models
SDL_BlitSurface into a destination buffer (the Bool is the source-alpha
blending flag chosen by the caller via SDL_SetAlpha), openFont models
TTF_OpenFont on a file name and point size. -/
structure SDLEnv where
  bigEndian : Bool
  openFont : String → Int → Option Nat
  raster : String → Option Surface
  convert : Surface → Option Surface
  blit : Bool → Surface → List Nat → Option (List Nat)

/-- The SDLFont resource state: native TTF_Font* handle (none = NULL),
file name, point size, style bit mask, float colour and its packed 8-bit
mirror, plus the changedEvent listener list (the ids of the attached
SDLFontTextures, in subscription order). -/
structure SDLFont where
  font : Option Nat
  filename : String
  ptsize : Int
  style : Int
  colr : Vec3
  sdlcolr : SDLColor
  listeners : List Nat
  deriving DecidableEq, Repr

/-- The SDLFontTexture state.  fontRef is the identity of the SDLFontPtr
the texture holds; bgcolr exists only in revision A (revision B never
reads it).  data models the unsigned char* buffer (none = NULL). -/
structure SDLFontTexture where
  fontRef : Nat
  id : Int
  data : Option (List Nat)
  width : Nat
  height : Nat
  depth : Nat
  text : String
  fixed_size : Bool
  bgcolr : Vec4
  deriving DecidableEq, Repr

/-- Result of SDLFont::Render on one texture: the texture state after the
call (in C++ Render mutates the texture in place, so on a throw the
partially updated state persists), whether the texture-level changed event
was fired, and the exception message if one was thrown. -/
structure RenderResult where
  tex : SDLFontTexture
  fired : Bool
  err : Option String
  deriving DecidableEq, Repr

def errNotLoadedA : String := "SDLFont: Font not loaded."
def errRenderA : String := "SDLFont: Error rendering font"
def errDepthA : String := "SDLFont: Unsupported font surface."
def errConvertA : String := "SDLFont: Error converting SDL_ttf surface"
def errBlitA : String := "SDLFont: Error blitting surface."
def errCreateA : String := "SDLFont: Font not loaded"
def errNotLoadedB : String := "Error rendering FontTexture: Font not loaded."
def errRenderB : String := "Error rendering font"
def errDepthB : String := "Unsupported font surface."
def errConvertB : String := "Error converting SDL_ttf surface"
def errBlitB : String := "Error blitting surface."
def errCreateB : String := "Font not loaded"

/-- The exception message of SDLFont::Load on TTF_OpenFont failure (the
trailing TTF_GetError() text is external and omitted). -/
def errLoad (filename : String) : String :=
  "Error loading SDLFont data in: " ++ filename

/-- The "weird hack" fill value of revision A: c |= r << 24; c |= g << 16;
c |= b << 8; c |= a, with r,g,b,a the background channels rounded to Uint8
(SDLFont.cpp lines 167-177). -/
def fillColor (bg : Vec4) : Nat :=
  ((((0 ||| (toUint8 (roundf (bg.x * 255)) <<< 24)) |||
      (toUint8 (roundf (bg.y * 255)) <<< 16)) |||
      (toUint8 (roundf (bg.z * 255)) <<< 8)) |||
      toUint8 (roundf (bg.w * 255)))

/-- The byte sequence of one pixel holding the configured background
colour under the RGBA layout the textures advertise (red in the byte
selected by Rmask, which is byte 0 on either endianness).  This definition
follows the spec's words ("buffer fully filled with the configured
background color") and is compared against what the code writes. -/
def bgColorBytes (bg : Vec4) : List Nat :=
  [toUint8 (roundf (bg.x * 255)), toUint8 (roundf (bg.y * 255)),
   toUint8 (roundf (bg.z * 255)), toUint8 (roundf (bg.w * 255))]

namespace RevA

/-- Revision A (SDLFont.cpp lines 156-179): for a fixed-size texture Render
first creates an SDL surface aliasing tex->data and fills every pixel with
fillColor via SDL_FillRect, before the empty-text test and before any
rasterization.  Auto-sized textures are untouched. -/
def prefill (bigEndian : Bool) (tex : SDLFontTexture) : SDLFontTexture :=
  if tex.fixed_size then
    { tex with data := some (List.flatten (List.replicate (tex.width * tex.height)
        (pixelBytes bigEndian (fillColor tex.bgcolr)))) }
  else tex

/-- Revision A, SDLFont::Render after the surface returned by
TTF_RenderText_Blended is available (SDLFont.cpp lines 205-235). -/
def renderSurf (env : SDLEnv) (tex : SDLFontTexture) (surf : Surface) : RenderResult :=
  if surf.bitsPerPixel ≠ 32 then
    ⟨{ tex with depth := surf.bitsPerPixel }, false, some errDepthA⟩
  else
    match env.convert surf with
    | none => ⟨{ tex with depth := surf.bitsPerPixel }, false, some errConvertA⟩
    | some converted =>
      if tex.fixed_size then
        match env.blit (decide (tex.bgcolr.w ≠ 0)) converted (tex.data.getD []) with
        | none => ⟨{ tex with depth := surf.bitsPerPixel }, false, some errBlitA⟩
        | some d => ⟨{ tex with depth := surf.bitsPerPixel, data := some d }, true, none⟩
      else
        ⟨{ tex with
            depth := surf.bitsPerPixel, width := surf.w, height := surf.h
            data := some (converted.pixels.take (surf.bitsPerPixel / 8 * surf.w * surf.h)) },
         true, none⟩

/-- Revision A, body of SDLFont::Render after the loaded check and the
fixed-size prefill (SDLFont.cpp lines 181-235). -/
def renderBody (env : SDLEnv) (tex : SDLFontTexture) : RenderResult :=
  if tex.text = "" then
    (if tex.fixed_size then ⟨tex, true, none⟩
     else ⟨{ tex with data := some [0, 0, 0, 0], width := 1, height := 1, depth := 32 },
           true, none⟩)
  else
    match env.raster tex.text with
    | none => ⟨tex, false, some errRenderA⟩
    | some surf => renderSurf env tex surf

/-- Revision A, SDLFont::Render (SDLFont.cpp lines 139-236). -/
def Render (env : SDLEnv) (f : SDLFont) (tex : SDLFontTexture) : RenderResult :=
  if f.font.isNone then ⟨tex, false, some errNotLoadedA⟩
  else renderBody env (prefill env.bigEndian tex)

/-- Revision A, SDLFontTexture::SetText (SDLFont.cpp lines 411-414): store
the text, then re-render. -/
def SetText (env : SDLEnv) (f : SDLFont) (tex : SDLFontTexture) (s : String) : RenderResult :=
  Render env f { tex with text := s }

end RevA

namespace RevB

/-- Revision B, SDLFont::Render after rasterization succeeded
(part_000 lines 166-226).  For a fixed-size texture the buffer is first
zeroed with memset, then SDL_BlitSurface (with blending disabled by
SDL_SetAlpha(converted,0,0)) writes into it; a blit failure therefore
leaves the zeroed buffer behind. -/
def renderSurf (env : SDLEnv) (tex : SDLFontTexture) (surf : Surface) : RenderResult :=
  if surf.bitsPerPixel ≠ 32 then
    ⟨{ tex with depth := surf.bitsPerPixel }, false, some errDepthB⟩
  else
    match env.convert surf with
    | none => ⟨{ tex with depth := surf.bitsPerPixel }, false, some errConvertB⟩
    | some converted =>
      if tex.fixed_size then
        match env.blit false converted
            (List.replicate (surf.bitsPerPixel / 8 * tex.width * tex.height) 0) with
        | none =>
          ⟨{ tex with
              depth := surf.bitsPerPixel
              data := some (List.replicate (surf.bitsPerPixel / 8 * tex.width * tex.height) 0) },
           false, some errBlitB⟩
        | some d => ⟨{ tex with depth := surf.bitsPerPixel, data := some d }, true, none⟩
      else
        ⟨{ tex with
            depth := surf.bitsPerPixel, width := surf.w, height := surf.h
            data := some (converted.pixels.take (surf.bitsPerPixel / 8 * surf.w * surf.h)) },
         true, none⟩

/-- Revision B, body of SDLFont::Render after the loaded check
(part_000 lines 142-228).  Empty text on a fixed-size texture zero-fills
the whole buffer with memset (there is no background colour in this
revision). -/
def renderBody (env : SDLEnv) (tex : SDLFontTexture) : RenderResult :=
  if tex.text = "" then
    (if tex.fixed_size then
       ⟨{ tex with data := some (List.replicate (tex.depth / 8 * tex.width * tex.height) 0) },
        true, none⟩
     else ⟨{ tex with data := some [0, 0, 0, 0], width := 1, height := 1, depth := 32 },
           true, none⟩)
  else
    match env.raster tex.text with
    | none => ⟨tex, false, some errRenderB⟩
    | some surf => renderSurf env tex surf

/-- Revision B, SDLFont::Render (part_000 lines 139-228). -/
def Render (env : SDLEnv) (f : SDLFont) (tex : SDLFontTexture) : RenderResult :=
  if f.font.isNone then ⟨tex, false, some errNotLoadedB⟩
  else renderBody env tex

/-- Revision B, SDLFontTexture::SetText (part_000 lines 407-410). -/
def SetText (env : SDLEnv) (f : SDLFont) (tex : SDLFontTexture) (s : String) : RenderResult :=
  Render env f { tex with text := s }

end RevB

/-- The Loaded state of the font resource: in the source there is no
separate state flag, being loaded means exactly that the native handle is
non-NULL. -/
def SDLFont.IsLoaded (f : SDLFont) : Prop := f.font.isSome = true

/-- SDLFont::Load (identical in both revisions, SDLFont.cpp lines 111-117):
no-op when the handle exists, otherwise TTF_OpenFont at the stored file
name and point size; on failure the handle stays NULL and a
ResourceException is thrown. -/
def SDLFont.Load (env : SDLEnv) (f : SDLFont) : SDLFont × Option String :=
  match f.font with
  | some _ => (f, none)
  | none =>
    match env.openFont f.filename f.ptsize with
    | some h => ({ f with font := some h }, none)
    | none => ({ f with font := none }, some (errLoad f.filename))

/-- SDLFont::Unload (identical in both revisions, SDLFont.cpp lines
126-132): release the handle if present, otherwise do nothing. -/
def SDLFont.Unload (f : SDLFont) : SDLFont :=
  match f.font with
  | some _ => { f with font := none }
  | none => f

/-- SDLFont::SetSize in revision A, SDLFont::SetPointSize in revision B
(identical bodies): store the new point size, and only when loaded tear
the handle down and re-acquire it.  Neither revision fires the changed
event here. -/
def SDLFont.SetSize (env : SDLEnv) (f : SDLFont) (p : Int) : SDLFont × Option String :=
  if f.font.isSome then SDLFont.Load env (SDLFont.Unload { f with ptsize := p })
  else ({ f with ptsize := p }, none)

/-- A whole-system state: the font resource plus the existing
SDLFontTexture objects keyed by identity.  fontRef is the identity of this
font (textures record which font they hold). -/
structure Sys where
  fontRef : Nat
  font : SDLFont
  textures : List (Nat × SDLFontTexture)
  deriving DecidableEq, Repr

/-- Look a texture up by identity. -/
def lookupTex : List (Nat × SDLFontTexture) → Nat → Option SDLFontTexture
  | [], _ => none
  | (k, t) :: rest, tid => if k = tid then some t else lookupTex rest tid

/-- Replace the texture stored under an identity (first occurrence). -/
def updateTex : List (Nat × SDLFontTexture) → Nat → SDLFontTexture → List (Nat × SDLFontTexture)
  | [], _, _ => []
  | (k, t) :: rest, tid, t' =>
    if k = tid then (k, t') :: rest else (k, t) :: updateTex rest tid t'

/-- Remove a texture by identity (first occurrence). -/
def eraseTex : List (Nat × SDLFontTexture) → Nat → List (Nat × SDLFontTexture)
  | [], _ => []
  | (k, t) :: rest, tid => if k = tid then rest else (k, t) :: eraseTex rest tid

/-- Observable events during an operation: the font-level changed event
(FontChangedEventArg broadcast), an invocation of SDLFont::Render on a
texture, and a texture-level changed event (TextureChangedEventArg). -/
inductive Ev where
  | fontChanged : Ev
  | renderCall : Nat → Ev
  | texChanged : Nat → Ev
  deriving DecidableEq, Repr

/-- The ids of the Render invocations in a trace, in order. -/
def renderIds (evs : List Ev) : List Nat :=
  evs.filterMap (fun e => match e with | Ev.renderCall t => some t | _ => none)

/-- Result of the texture-map part of a broadcast: updated textures, the
event trace produced after the initial font-level event, and the exception
(if any) that aborted the broadcast. -/
structure NotifyRes where
  texs : List (Nat × SDLFontTexture)
  evs : List Ev
  err : Option String
  deriving Repr

/-- IEvent::Notify over the listener list: each attached SDLFontTexture's
Handle(FontChangedEventArg) re-invokes Render synchronously, in
subscription order; an exception thrown by a Render aborts the rest of the
broadcast and propagates.  (A listener id with no live texture cannot
occur in C++, where listeners are object references; such an id is
skipped.) -/
def notifyGo (render : SDLEnv → SDLFont → SDLFontTexture → RenderResult)
    (env : SDLEnv) (f : SDLFont) :
    List Nat → List (Nat × SDLFontTexture) → NotifyRes
  | [], texs => ⟨texs, [], none⟩
  | tid :: rest, texs =>
    match lookupTex texs tid with
    | none => notifyGo render env f rest texs
    | some t =>
      match render env f t with
      | ⟨tex1, fired, some e⟩ =>
        ⟨updateTex texs tid tex1,
         Ev.renderCall tid :: (if fired then [Ev.texChanged tid] else []),
         some e⟩
      | ⟨tex1, fired, none⟩ =>
        let res := notifyGo render env f rest (updateTex texs tid tex1)
        ⟨res.texs,
         Ev.renderCall tid :: ((if fired then [Ev.texChanged tid] else []) ++ res.evs),
         res.err⟩

/-- Result of a system-level operation with its event trace. -/
structure SysRes where
  sys : Sys
  evs : List Ev
  err : Option String
  deriving Repr

/-- SDLFont::FireChangedEvent: Notify(FontChangedEventArg(...)) on the
changedEvent, which re-renders every attached texture in subscription
order. -/
def fireChangedEventSys (render : SDLEnv → SDLFont → SDLFontTexture → RenderResult)
    (env : SDLEnv) (s : Sys) : SysRes :=
  let r := notifyGo render env s.font s.font.listeners s.textures
  ⟨{ s with textures := r.texs }, Ev.fontChanged :: r.evs, r.err⟩

/-- SDLFontTexture::~SDLFontTexture (both revisions): free the buffer and
Detach from the font's changed event. -/
def DestroyTexture (s : Sys) (tid : Nat) : Sys :=
  { s with
      font := { s.font with listeners := s.font.listeners.erase tid }
      textures := eraseTex s.textures tid }

/-- SDLFontTexture::SetText at system level: store, then Render through
the held font.  The texture keeps any state Render left even when Render
throws. -/
def setTextSys (render : SDLEnv → SDLFont → SDLFontTexture → RenderResult)
    (env : SDLEnv) (s : Sys) (tid : Nat) (txt : String) : Sys × Option String :=
  match lookupTex s.textures tid with
  | none => (s, none)
  | some t =>
    let r := render env s.font { t with text := txt }
    ({ s with textures := updateTex s.textures tid r.tex }, r.err)

namespace RevA

/-- Revision A, SDLFont::SetStyle (SDLFont.cpp lines 302-305): store the
style and fire the changed event. -/
def SetStyleSys (env : SDLEnv) (s : Sys) (v : Int) : SysRes :=
  fireChangedEventSys RevA.Render env { s with font := { s.font with style := v } }

/-- Revision A, SDLFont::SetSize at system level (SDLFont.cpp lines
278-284): no event is fired. -/
def SetSizeSys (env : SDLEnv) (s : Sys) (p : Int) : SysRes :=
  ⟨{ s with font := (SDLFont.SetSize env s.font p).1 }, [],
   (SDLFont.SetSize env s.font p).2⟩

/-- Revision A, SDLFont::SetColor on the font state (SDLFont.cpp lines
323-330): store the colour unclamped and mirror it into sdlcolr. -/
def setColorFont (f : SDLFont) (c : Vec3) : SDLFont :=
  { f with
      colr := c
      sdlcolr := ⟨toUint8 (roundf (c.x * 255)), toUint8 (roundf (c.y * 255)),
                  toUint8 (roundf (c.z * 255))⟩ }

/-- Revision A, SDLFont::SetColor at system level: it fires the changed
event. -/
def SetColorSys (env : SDLEnv) (s : Sys) (c : Vec3) : SysRes :=
  fireChangedEventSys RevA.Render env { s with font := setColorFont s.font c }

/-- Revision A, auto-sized SDLFontTexture constructor (SDLFont.cpp lines
342-349): data NULL, not fixed-size, attach to the font's changed event.
width, height, depth are left uninitialized by the C++ constructor and are
modelled as 0; every path that reads them first goes through Render, which
overwrites them.  bgcolr is the default (zero) vector. -/
def newAutoTex (fontRef : Nat) : SDLFontTexture :=
  { fontRef := fontRef, id := 0, data := none, width := 0, height := 0, depth := 0,
    text := "", fixed_size := false, bgcolr := ⟨0, 0, 0, 0⟩ }

/-- Revision A, fixed-size SDLFontTexture constructor (SDLFont.cpp lines
351-362): dimensions from the arguments, depth 32, buffer of
depth/8*width*height bytes (uninitialized in C++, modelled as zeros; the
immediately following Render overwrites it before anyone reads it). -/
def newFixedTex (fontRef : Nat) (w h : Nat) : SDLFontTexture :=
  { fontRef := fontRef, id := 0, data := some (List.replicate (32 / 8 * w * h) 0),
    width := w, height := h, depth := 32,
    text := "", fixed_size := true, bgcolr := ⟨0, 0, 0, 0⟩ }

/-- Revision A, SDLFont::CreateFontTexture() (SDLFont.cpp lines 245-253):
throw if not loaded (no texture is created); otherwise construct the
texture (which attaches it), render it, and hand it out.  If Render threw,
the local shared_ptr's destructor would destroy the texture again and
detach it. -/
def CreateFontTextureAuto (env : SDLEnv) (s : Sys) (tid : Nat) : Sys × Option String :=
  if s.font.font.isNone then (s, some errCreateA)
  else
    match RevA.Render env { s.font with listeners := s.font.listeners ++ [tid] }
        (newAutoTex s.fontRef) with
    | ⟨_, _, some e⟩ => (s, some e)
    | ⟨tex1, _, none⟩ =>
      ({ s with
          font := { s.font with listeners := s.font.listeners ++ [tid] }
          textures := s.textures ++ [(tid, tex1)] }, none)

/-- Revision A, SDLFont::CreateFontTexture(int,int) (SDLFont.cpp lines
262-270). -/
def CreateFontTextureFixed (env : SDLEnv) (s : Sys) (tid : Nat) (w h : Nat) :
    Sys × Option String :=
  if s.font.font.isNone then (s, some errCreateA)
  else
    match RevA.Render env { s.font with listeners := s.font.listeners ++ [tid] }
        (newFixedTex s.fontRef w h) with
    | ⟨_, _, some e⟩ => (s, some e)
    | ⟨tex1, _, none⟩ =>
      ({ s with
          font := { s.font with listeners := s.font.listeners ++ [tid] }
          textures := s.textures ++ [(tid, tex1)] }, none)

/-- Revision A, SDLFontTexture::SetText at system level. -/
def SetTextSys (env : SDLEnv) (s : Sys) (tid : Nat) (txt : String) : Sys × Option String :=
  setTextSys RevA.Render env s tid txt

end RevA

namespace RevB

/-- Revision B, SDLFont::SetFontStyle (part_000 lines 294-297): store the
style and fire the changed event. -/
def SetFontStyleSys (env : SDLEnv) (s : Sys) (v : Int) : SysRes :=
  fireChangedEventSys RevB.Render env { s with font := { s.font with style := v } }

/-- Revision B, SDLFont::SetPointSize at system level (part_000 lines
270-276): no event is fired. -/
def SetPointSizeSys (env : SDLEnv) (s : Sys) (p : Int) : SysRes :=
  ⟨{ s with font := (SDLFont.SetSize env s.font p).1 }, [],
   (SDLFont.SetSize env s.font p).2⟩

/-- Revision B, SDLFont::SetFontColor (part_000 lines 315-326): the stored
colour is clamped from above, channel-wise, with fmin(1.0, c); the packed
sdlcolr mirror is computed from the UNCLAMPED parameter (the clamp writes
this->colr while the mirror reads the local colr).  No changed event is
fired in this revision. -/
def SetFontColor (f : SDLFont) (c : Vec3) : SDLFont :=
  { f with
      colr := ⟨min 1 c.x, min 1 c.y, min 1 c.z⟩
      sdlcolr := ⟨toUint8 (roundf (c.x * 255)), toUint8 (roundf (c.y * 255)),
                  toUint8 (roundf (c.z * 255))⟩ }

/-- Revision B, SDLFont::GetFontColor (part_000 lines 333-335). -/
def GetFontColor (f : SDLFont) : Vec3 := f.colr

/-- Revision B, SDLFont::SetFontColor at system level: no broadcast. -/
def SetFontColorSys (_env : SDLEnv) (s : Sys) (c : Vec3) : SysRes :=
  ⟨{ s with font := SetFontColor s.font c }, [], none⟩

/-- Revision B, auto-sized SDLFontTexture constructor (part_000 lines
338-345); as in revision A, width, height, depth are uninitialized in C++
and modelled as 0. -/
def newAutoTex (fontRef : Nat) : SDLFontTexture :=
  { fontRef := fontRef, id := 0, data := none, width := 0, height := 0, depth := 0,
    text := "", fixed_size := false, bgcolr := ⟨0, 0, 0, 0⟩ }

/-- Revision B, fixed-size SDLFontTexture constructor (part_000 lines
347-358): depth 32, buffer of 4*width*height bytes. -/
def newFixedTex (fontRef : Nat) (w h : Nat) : SDLFontTexture :=
  { fontRef := fontRef, id := 0, data := some (List.replicate (4 * w * h) 0),
    width := w, height := h, depth := 32,
    text := "", fixed_size := true, bgcolr := ⟨0, 0, 0, 0⟩ }

/-- Revision B, SDLFont::CreateFontTexture() (part_000 lines 237-245). -/
def CreateFontTextureAuto (env : SDLEnv) (s : Sys) (tid : Nat) : Sys × Option String :=
  if s.font.font.isNone then (s, some errCreateB)
  else
    match RevB.Render env { s.font with listeners := s.font.listeners ++ [tid] }
        (newAutoTex s.fontRef) with
    | ⟨_, _, some e⟩ => (s, some e)
    | ⟨tex1, _, none⟩ =>
      ({ s with
          font := { s.font with listeners := s.font.listeners ++ [tid] }
          textures := s.textures ++ [(tid, tex1)] }, none)

/-- Revision B, SDLFont::CreateFontTexture(int,int) (part_000 lines
254-262). -/
def CreateFontTextureFixed (env : SDLEnv) (s : Sys) (tid : Nat) (w h : Nat) :
    Sys × Option String :=
  if s.font.font.isNone then (s, some errCreateB)
  else
    match RevB.Render env { s.font with listeners := s.font.listeners ++ [tid] }
        (newFixedTex s.fontRef w h) with
    | ⟨_, _, some e⟩ => (s, some e)
    | ⟨tex1, _, none⟩ =>
      ({ s with
          font := { s.font with listeners := s.font.listeners ++ [tid] }
          textures := s.textures ++ [(tid, tex1)] }, none)

/-- Revision B, SDLFontTexture::SetText at system level. -/
def SetTextSys (env : SDLEnv) (s : Sys) (tid : Nat) (txt : String) : Sys × Option String :=
  setTextSys RevB.Render env s tid txt

end RevB

/-- A concrete little-endian oracle in which every external SDL call
fails; concrete statements below adjust individual fields. -/
def baseEnv : SDLEnv :=
  { bigEndian := false
    openFont := fun _ _ => none
    raster := fun _ => none
    convert := fun _ => none
    blit := fun _ _ _ => none }

/-- A concrete loaded font (handle 1, defaults from the constructor:
point size 12, style FONT_STYLE_NORMAL = 0, white colour). -/
def baseFont : SDLFont :=
  { font := some 1
    filename := "font.ttf"
    ptsize := 12
    style := 0
    colr := ⟨1, 1, 1⟩
    sdlcolr := ⟨255, 255, 255⟩
    listeners := [] }

/-- A concrete auto-sized texture with empty text. -/
def baseTex : SDLFontTexture :=
  { fontRef := 0, id := 0, data := none, width := 0, height := 0, depth := 0,
    text := "", fixed_size := false, bgcolr := ⟨0, 0, 0, 0⟩ }

/-- A concrete system: the loaded font with one attached empty-text
texture, id 10. -/
def sysOne : Sys :=
  { fontRef := 7
    font := { baseFont with listeners := [10] }
    textures := [(10, baseTex)] }

/-- A concrete system: the loaded font with two attached empty-text
textures, ids 10 and 20, subscribed in that order. -/
def sysTwo : Sys :=
  { fontRef := 7
    font := { baseFont with listeners := [10, 20] }
    textures := [(10, baseTex), (20, baseTex)] }

/-- A Uint8 value is below 256. -/
theorem toUint8_lt (i : Int) : toUint8 i < 256 := by
  unfold toUint8
  have h1 : 0 ≤ i % 256 := Int.emod_nonneg i (by norm_num)
  have h2 : i % 256 < 256 := Int.emod_lt_of_pos i (by norm_num)
  omega

/-- The OR-of-shifted-bytes packing used by revision A's fill equals plain
base-256 positional composition when all four fields are single bytes. -/
theorem lor_bytes (r g b a : Nat) (_hr : r < 2 ^ 8) (hg : g < 2 ^ 8) (hb : b < 2 ^ 8)
    (ha : a < 2 ^ 8) :
    (((0 ||| (r <<< 24)) ||| (g <<< 16)) ||| (b <<< 8)) ||| a
      = 2 ^ 24 * r + 2 ^ 16 * g + 2 ^ 8 * b + a := by
  have h1 : 2 ^ 8 * b + a < 2 ^ 16 := by omega
  have h2 : 2 ^ 16 * g + (2 ^ 8 * b + a) < 2 ^ 24 := by omega
  rw [Nat.zero_or, Nat.shiftLeft_eq, Nat.shiftLeft_eq, Nat.shiftLeft_eq,
      Nat.or_assoc, Nat.or_assoc, Nat.mul_comm r, Nat.mul_comm g, Nat.mul_comm b,
      ← Nat.mul_add_lt_is_or ha, ← Nat.mul_add_lt_is_or h1, ← Nat.mul_add_lt_is_or h2]
  omega

/-- Big-endian byte layout of a base-256 positional composition. -/
theorem pixelBytes_true_of_bytes (r g b a : Nat) (hr : r < 256) (hg : g < 256)
    (hb : b < 256) (ha : a < 256) :
    pixelBytes true (2 ^ 24 * r + 2 ^ 16 * g + 2 ^ 8 * b + a) = [r, g, b, a] := by
  have hpb : ∀ c : Nat, pixelBytes true c
      = [c / 16777216 % 256, c / 65536 % 256, c / 256 % 256, c % 256] := fun c => rfl
  rw [hpb]
  simp only [List.cons.injEq, and_true]
  refine ⟨by omega, by omega, by omega, by omega⟩

/-- On a big-endian host the fill value of revision A lands in memory as
exactly the background colour's RGBA bytes. -/
theorem pixelBytes_true_fillColor (bg : Vec4) :
    pixelBytes true (fillColor bg) = bgColorBytes bg := by
  unfold fillColor bgColorBytes
  rw [lor_bytes _ _ _ _ (toUint8_lt _) (toUint8_lt _) (toUint8_lt _) (toUint8_lt _)]
  exact pixelBytes_true_of_bytes _ _ _ _ (toUint8_lt _) (toUint8_lt _) (toUint8_lt _)
    (toUint8_lt _)

/-- C2: for every auto-sized texture with empty text, Render on a loaded
font produces width 1, height 1, depth 32 and the 4-byte all-zero buffer,
in both revisions, firing the texture-changed event and throwing
nothing. -/
theorem C2_render_empty_auto (env : SDLEnv) (f : SDLFont) (h : Nat) (tex : SDLFontTexture) :
    RevA.Render env { f with font := some h } { tex with text := "", fixed_size := false }
      = ⟨{ tex with
            text := "", fixed_size := false, data := some [0, 0, 0, 0]
            width := 1, height := 1, depth := 32 }, true, none⟩
    ∧ RevB.Render env { f with font := some h } { tex with text := "", fixed_size := false }
      = ⟨{ tex with
            text := "", fixed_size := false, data := some [0, 0, 0, 0]
            width := 1, height := 1, depth := 32 }, true, none⟩ := by
  constructor <;> rfl

/-- C5: with a NULL native handle, Render throws in both revisions, and
both CreateFontTexture variants throw and leave the system unchanged (no
texture is created, nothing is attached). -/
theorem C5_not_loaded_throws (env : SDLEnv) (f : SDLFont) (tex : SDLFontTexture)
    (s : Sys) (tid w hh : Nat) :
    RevA.Render env { f with font := none } tex = ⟨tex, false, some errNotLoadedA⟩
    ∧ RevB.Render env { f with font := none } tex = ⟨tex, false, some errNotLoadedB⟩
    ∧ RevA.CreateFontTextureAuto env { s with font := { f with font := none } } tid
      = ({ s with font := { f with font := none } }, some errCreateA)
    ∧ RevA.CreateFontTextureFixed env { s with font := { f with font := none } } tid w hh
      = ({ s with font := { f with font := none } }, some errCreateA)
    ∧ RevB.CreateFontTextureAuto env { s with font := { f with font := none } } tid
      = ({ s with font := { f with font := none } }, some errCreateB)
    ∧ RevB.CreateFontTextureFixed env { s with font := { f with font := none } } tid w hh
      = ({ s with font := { f with font := none } }, some errCreateB) := by
  refine ⟨rfl, rfl, rfl, rfl, rfl, rfl⟩

/-- Revision A's Render never touches the stored text (auxiliary). -/
theorem renderSurfA_text (env : SDLEnv) (tex : SDLFontTexture) (surf : Surface) :
    (RevA.renderSurf env tex surf).tex.text = tex.text := by
  unfold RevA.renderSurf
  split
  · rfl
  · split
    · rfl
    · split
      · split <;> rfl
      · rfl

/-- Revision A's Render body never touches the stored text (auxiliary). -/
theorem renderBodyA_text (env : SDLEnv) (tex : SDLFontTexture) :
    (RevA.renderBody env tex).tex.text = tex.text := by
  unfold RevA.renderBody
  split
  · split <;> rfl
  · split
    · rfl
    · exact renderSurfA_text env tex _

/-- Revision A's prefill never touches the stored text (auxiliary). -/
theorem prefillA_text (bigEndian : Bool) (tex : SDLFontTexture) :
    (RevA.prefill bigEndian tex).text = tex.text := by
  unfold RevA.prefill
  split <;> rfl

/-- Revision A's Render leaves the stored text unchanged on every path
(auxiliary). -/
theorem renderA_text (env : SDLEnv) (f : SDLFont) (tex : SDLFontTexture) :
    (RevA.Render env f tex).tex.text = tex.text := by
  unfold RevA.Render
  split
  · rfl
  · rw [renderBodyA_text, prefillA_text]

/-- Revision B's Render never touches the stored text (auxiliary). -/
theorem renderSurfB_text (env : SDLEnv) (tex : SDLFontTexture) (surf : Surface) :
    (RevB.renderSurf env tex surf).tex.text = tex.text := by
  unfold RevB.renderSurf
  split
  · rfl
  · split
    · rfl
    · split
      · split <;> rfl
      · rfl

/-- Revision B's Render leaves the stored text unchanged on every path
(auxiliary). -/
theorem renderB_text (env : SDLEnv) (f : SDLFont) (tex : SDLFontTexture) :
    (RevB.Render env f tex).tex.text = tex.text := by
  unfold RevB.Render RevB.renderBody
  split
  · rfl
  · split
    · split <;> rfl
    · split
      · rfl
      · exact renderSurfB_text env tex _

/-- C10: SetText stores the string before rendering, in both revisions:
the stored text is the new string on every path, and when the font is not
loaded the render throws while buffer, width and height keep their
previous values. -/
theorem C10_settext_stores_then_renders (env : SDLEnv) (f : SDLFont)
    (tex : SDLFontTexture) (s : String) :
    RevA.SetText env { f with font := none } tex s
      = ⟨{ tex with text := s }, false, some errNotLoadedA⟩
    ∧ RevB.SetText env { f with font := none } tex s
      = ⟨{ tex with text := s }, false, some errNotLoadedB⟩
    ∧ (RevA.SetText env f tex s).tex.text = s
    ∧ (RevB.SetText env f tex s).tex.text = s := by
  refine ⟨rfl, rfl, ?_, ?_⟩
  · show (RevA.Render env f { tex with text := s }).tex.text = s
    rw [renderA_text]
  · show (RevB.Render env f { tex with text := s }).tex.text = s
    rw [renderB_text]

/-- C6: the native handle tracks the Loaded state through the lifecycle
operations: Load is a no-op when loaded, acquires the handle otherwise and
leaves it NULL when TTF_OpenFont fails (throwing); Unload is a no-op when
not loaded and NULLs the handle otherwise; SetSize stores the size, and
tears down and re-acquires the handle only when loaded. -/
theorem C6_handle_lifecycle (env : SDLEnv) (f : SDLFont) (h : Nat) (p : Int) :
    SDLFont.Load env { f with font := some h } = ({ f with font := some h }, none)
    ∧ SDLFont.Load env { f with font := none }
      = (match env.openFont f.filename f.ptsize with
         | some hh => ({ f with font := some hh }, none)
         | none => ({ f with font := none }, some (errLoad f.filename)))
    ∧ SDLFont.Unload { f with font := none } = { f with font := none }
    ∧ SDLFont.Unload { f with font := some h } = { f with font := none }
    ∧ SDLFont.SetSize env { f with font := none } p = ({ f with font := none, ptsize := p }, none)
    ∧ SDLFont.SetSize env { f with font := some h } p
      = (match env.openFont f.filename p with
         | some hh => ({ f with font := some hh, ptsize := p }, none)
         | none => ({ f with font := none, ptsize := p }, some (errLoad f.filename)))
    ∧ ((SDLFont.Load env { f with font := none }).1.IsLoaded
        ↔ (env.openFont f.filename f.ptsize).isSome = true) := by
  refine ⟨rfl, rfl, rfl, rfl, rfl, ?_, ?_⟩
  · unfold SDLFont.SetSize SDLFont.Unload SDLFont.Load
    cases env.openFont f.filename p <;> rfl
  · unfold SDLFont.Load SDLFont.IsLoaded
    cases env.openFont f.filename f.ptsize <;> simp

/-- C7 as stated is false: SDLFont::SetFontColor of revision B only clamps
from above (fmin(1.0, x)), so the channel -1 is stored as -1, outside
[0,1]; and the packed mirror is computed from the unclamped input, so for
input channel 2 it is round(2*255) truncated to Uint8 = 254, not
round(stored*255) = 255. -/
theorem C7_counterexample :
    (RevB.SetFontColor baseFont ⟨2, -1, 0⟩).colr.y < 0
    ∧ (RevB.SetFontColor baseFont ⟨2, -1, 0⟩).colr.x = 1
    ∧ (RevB.SetFontColor baseFont ⟨2, -1, 0⟩).sdlcolr.r = 254
    ∧ toUint8 (roundf ((RevB.SetFontColor baseFont ⟨2, -1, 0⟩).colr.x * 255)) = 255 := by
  refine ⟨?_, ?_, ?_, ?_⟩ <;>
    · norm_num [RevB.SetFontColor, toUint8, roundf]
      try rfl

/-- C7 amended: SetFontColor stores each channel clamped from above to
min(1, x) (there is no lower clamp), GetFontColor returns that stored
value, and the packed 8-bit mirror is round(input * 255) reduced mod 256,
computed from the UNCLAMPED input. -/
theorem C7_amended (f : SDLFont) (c : Vec3) :
    RevB.SetFontColor f c
      = { f with
            colr := ⟨min 1 c.x, min 1 c.y, min 1 c.z⟩
            sdlcolr := ⟨toUint8 (roundf (c.x * 255)), toUint8 (roundf (c.y * 255)),
                        toUint8 (roundf (c.z * 255))⟩ }
    ∧ (RevB.SetFontColor f c).colr.x ≤ 1
    ∧ (RevB.SetFontColor f c).colr.y ≤ 1
    ∧ (RevB.SetFontColor f c).colr.z ≤ 1
    ∧ RevB.GetFontColor (RevB.SetFontColor f c) = ⟨min 1 c.x, min 1 c.y, min 1 c.z⟩
    ∧ (RevB.SetFontColor f c).sdlcolr.r < 256
    ∧ (RevB.SetFontColor f c).sdlcolr.g < 256
    ∧ (RevB.SetFontColor f c).sdlcolr.b < 256 := by
  refine ⟨rfl, ?_, ?_, ?_, rfl, toUint8_lt _, toUint8_lt _, toUint8_lt _⟩
  · exact min_le_left 1 c.x
  · exact min_le_left 1 c.y
  · exact min_le_left 1 c.z

/-- C8: the pixel format built by Render carries the RGBA channel masks
selected by the host byte order - on a little-endian host red is
0x000000FF (the lowest byte of each 4-byte pixel, as the memory layout of
a stored Uint32 confirms), green 0x0000FF00, blue 0x00FF0000, alpha
0xFF000000; on a big-endian host the masks are reversed and byte 0 of a
stored pixel is its top byte. -/
theorem C8_format_masks :
    (makeFormat false).Rmask = 0x000000FF
    ∧ (makeFormat false).Gmask = 0x0000FF00
    ∧ (makeFormat false).Bmask = 0x00FF0000
    ∧ (makeFormat false).Amask = 0xFF000000
    ∧ (makeFormat true).Rmask = 0xFF000000
    ∧ (makeFormat true).Gmask = 0x00FF0000
    ∧ (makeFormat true).Bmask = 0x0000FF00
    ∧ (makeFormat true).Amask = 0x000000FF
    ∧ (makeFormat false).BitsPerPixel = 32
    ∧ (makeFormat true).BitsPerPixel = 32
    ∧ (∀ c : Nat, (pixelBytes false c).head? = some (c &&& (makeFormat false).Rmask))
    ∧ (∀ c : Nat, (pixelBytes true c).head? = some (c / 2 ^ 24 % 256)) := by
  refine ⟨rfl, rfl, rfl, rfl, rfl, rfl, rfl, rfl, rfl, rfl, ?_, ?_⟩
  · intro c
    have h8 := Nat.and_pow_two_sub_one_eq_mod c 8
    norm_num at h8
    have hle : (pixelBytes false c).head? = some (c % 256) := rfl
    rw [hle, ← h8]
    rfl
  · intro c
    rfl

/-- C3 as stated is false on revision A on a little-endian host: for the
background colour (1,0,0,0) the hand-packed fill value 0xFF000000 lands in
memory as the bytes (0,0,0,255), i.e. fully transparent black with alpha
255 under the advertised RGBA layout, not the configured background
(255,0,0,0). -/
theorem C3_counterexample :
    (RevA.Render baseEnv baseFont
        { baseTex with
            fixed_size := true, width := 1, height := 1, depth := 32
            data := some [9, 9, 9, 9], bgcolr := ⟨1, 0, 0, 0⟩ }).tex.data
      = some [0, 0, 0, 255]
    ∧ bgColorBytes ⟨1, 0, 0, 0⟩ = [255, 0, 0, 0]
    ∧ [0, 0, 0, 255] ≠ bgColorBytes ⟨1, 0, 0, 0⟩ := by
  have h1 : toUint8 (roundf ((1 : Rat) * 255)) = 255 := by
    norm_num [roundf, toUint8]
    try rfl
  have h0 : toUint8 (roundf ((0 : Rat) * 255)) = 0 := by
    norm_num [roundf, toUint8]
  have hfc : fillColor ⟨1, 0, 0, 0⟩ = 4278190080 := by
    simp only [fillColor, h1, h0]
    decide
  have hbg : bgColorBytes ⟨1, 0, 0, 0⟩ = [255, 0, 0, 0] := by
    simp only [bgColorBytes, h1, h0]
  refine ⟨?_, hbg, ?_⟩
  · simp [RevA.Render, RevA.prefill, RevA.renderBody, baseEnv, baseFont, baseTex, hfc,
      pixelBytes]
  · rw [hbg]
    decide

/-- C3 amended: rendering empty text on a fixed-size texture leaves width,
height and depth unchanged; in revision A the buffer is filled, pixel by
pixel, with the hand-packed value r<<24|g<<16|b<<8|a written in host byte
order - which equals the background colour's RGBA bytes exactly on a
big-endian host; in revision B the buffer is simply zero-filled (that
revision has no background colour). -/
theorem C3_amended (env : SDLEnv) (f : SDLFont) (h w hh : Nat) (tex : SDLFontTexture)
    (bg : Vec4) :
    RevA.Render env { f with font := some h }
        { tex with
            text := "", fixed_size := true, width := w, height := hh, depth := 32
            bgcolr := bg }
      = ⟨{ tex with
            text := "", fixed_size := true, width := w, height := hh, depth := 32
            bgcolr := bg
            data := some (List.flatten (List.replicate (w * hh)
                (pixelBytes env.bigEndian (fillColor bg)))) }, true, none⟩
    ∧ pixelBytes true (fillColor bg) = bgColorBytes bg
    ∧ RevB.Render env { f with font := some h }
        { tex with text := "", fixed_size := true, width := w, height := hh, depth := 32 }
      = ⟨{ tex with
            text := "", fixed_size := true, width := w, height := hh, depth := 32
            data := some (List.replicate (32 / 8 * w * hh) 0) }, true, none⟩ := by
  refine ⟨rfl, pixelBytes_true_fillColor bg, rfl⟩

/-- Revision A's renderSurf leaves an auto-sized texture's buffer
untouched whenever it throws (auxiliary). -/
theorem renderSurfA_err_data (env : SDLEnv) (tex : SDLFontTexture) (surf : Surface)
    (hfx : tex.fixed_size = false) :
    (RevA.renderSurf env tex surf).err.isSome = true →
      (RevA.renderSurf env tex surf).tex.data = tex.data := by
  unfold RevA.renderSurf
  rcases eq_or_ne surf.bitsPerPixel 32 with hb | hb
  · rw [if_neg (by simp [hb])]
    cases env.convert surf with
    | none => intro _; rfl
    | some converted =>
      rw [hfx]
      simp
  · rw [if_pos hb]
    intro _
    rfl

/-- Revision A's renderBody leaves an auto-sized texture's buffer
untouched whenever it throws (auxiliary). -/
theorem renderBodyA_err_data (env : SDLEnv) (tex : SDLFontTexture)
    (hfx : tex.fixed_size = false) :
    (RevA.renderBody env tex).err.isSome = true →
      (RevA.renderBody env tex).tex.data = tex.data := by
  unfold RevA.renderBody
  rcases eq_or_ne tex.text "" with ht | ht
  · rw [if_pos ht, if_neg (by rw [hfx]; simp)]
    simp
  · rw [if_neg ht]
    cases env.raster tex.text with
    | none => intro _; rfl
    | some surf => exact renderSurfA_err_data env tex surf hfx

/-- Revision A's Render leaves an auto-sized texture's buffer untouched
whenever it throws (auxiliary). -/
theorem renderA_err_auto_data (env : SDLEnv) (f : SDLFont) (tex : SDLFontTexture)
    (hfx : tex.fixed_size = false) :
    (RevA.Render env f tex).err.isSome = true → (RevA.Render env f tex).tex.data = tex.data := by
  have hp : RevA.prefill env.bigEndian tex = tex := by
    unfold RevA.prefill
    rw [hfx]
    simp
  unfold RevA.Render
  rw [hp]
  cases f.font.isNone with
  | true =>
    intro _
    rfl
  | false =>
    rw [if_neg (by simp)]
    exact renderBodyA_err_data env tex hfx

/-- Revision B's renderSurf leaves an auto-sized texture's buffer
untouched whenever it throws (auxiliary). -/
theorem renderSurfB_err_data (env : SDLEnv) (tex : SDLFontTexture) (surf : Surface)
    (hfx : tex.fixed_size = false) :
    (RevB.renderSurf env tex surf).err.isSome = true →
      (RevB.renderSurf env tex surf).tex.data = tex.data := by
  unfold RevB.renderSurf
  rcases eq_or_ne surf.bitsPerPixel 32 with hb | hb
  · rw [if_neg (by simp [hb])]
    cases env.convert surf with
    | none => intro _; rfl
    | some converted =>
      rw [hfx]
      simp
  · rw [if_pos hb]
    intro _
    rfl

/-- Revision B's Render leaves an auto-sized texture's buffer untouched
whenever it throws (auxiliary). -/
theorem renderB_err_auto_data (env : SDLEnv) (f : SDLFont) (tex : SDLFontTexture)
    (hfx : tex.fixed_size = false) :
    (RevB.Render env f tex).err.isSome = true → (RevB.Render env f tex).tex.data = tex.data := by
  unfold RevB.Render
  cases f.font.isNone with
  | true =>
    intro _
    rfl
  | false =>
    rw [if_neg (by simp)]
    unfold RevB.renderBody
    rcases eq_or_ne tex.text "" with ht | ht
    · rw [if_pos ht, if_neg (by rw [hfx]; simp)]
      simp
    · rw [if_neg ht]
      cases env.raster tex.text with
      | none => intro _; rfl
      | some surf => exact renderSurfB_err_data env tex surf hfx

/-- C4 amended: when Render throws, an auto-sized texture's previous
buffer contents are unchanged, and with an unloaded font any texture is
returned entirely unchanged; a fixed-size texture's buffer, however, may
already have been overwritten before the failing step (revision A
pre-fills it with the packed background value before rasterizing, revision
B zeroes it before blitting). -/
theorem C4_amended (env : SDLEnv) (f : SDLFont) (tex : SDLFontTexture) :
    ((RevA.Render env f { tex with fixed_size := false }).err.isSome = true →
      (RevA.Render env f { tex with fixed_size := false }).tex.data = tex.data)
    ∧ ((RevB.Render env f { tex with fixed_size := false }).err.isSome = true →
      (RevB.Render env f { tex with fixed_size := false }).tex.data = tex.data)
    ∧ (f.font.isNone = true → RevA.Render env f tex = ⟨tex, false, some errNotLoadedA⟩)
    ∧ (f.font.isNone = true → RevB.Render env f tex = ⟨tex, false, some errNotLoadedB⟩) := by
  refine ⟨renderA_err_auto_data env f _ rfl, renderB_err_auto_data env f _ rfl,
    ?_, ?_⟩
  · intro hn
    unfold RevA.Render
    rw [if_pos hn]
  · intro hn
    unfold RevB.Render
    rw [if_pos hn]

/-- Witness for C4 amended: a concrete auto-sized texture whose
rasterization fails keeps its previous 3-byte buffer. -/
theorem C4_amended_witness :
    (RevA.Render baseEnv baseFont
        { baseTex with text := "x", data := some [1, 2, 3], fixed_size := false }).err.isSome
      = true
    ∧ (RevA.Render baseEnv baseFont
        { baseTex with text := "x", data := some [1, 2, 3], fixed_size := false }).tex.data
      = some [1, 2, 3] := by
  refine ⟨by decide, ?_⟩
  exact (C4_amended baseEnv baseFont
    { baseTex with text := "x", data := some [1, 2, 3] }).1 (by decide)

theorem renderIds_nil : renderIds [] = [] := rfl

theorem renderIds_cons_render (tid : Nat) (evs : List Ev) :
    renderIds (Ev.renderCall tid :: evs) = tid :: renderIds evs := rfl

theorem renderIds_cons_tex (tid : Nat) (evs : List Ev) :
    renderIds (Ev.texChanged tid :: evs) = renderIds evs := rfl

theorem renderIds_cons_font (evs : List Ev) :
    renderIds (Ev.fontChanged :: evs) = renderIds evs := rfl

theorem renderIds_append (l1 l2 : List Ev) :
    renderIds (l1 ++ l2) = renderIds l1 ++ renderIds l2 :=
  List.filterMap_append l1 l2 _

/-- Updating a texture entry preserves which ids are present (auxiliary). -/
theorem lookupTex_updateTex_isSome (texs : List (Nat × SDLFontTexture)) (tid tid' : Nat)
    (t' : SDLFontTexture) :
    (lookupTex (updateTex texs tid t') tid').isSome = (lookupTex texs tid').isSome := by
  induction texs with
  | nil => rfl
  | cons p rest ih =>
    obtain ⟨k, t⟩ := p
    by_cases hk : k = tid
    · simp only [updateTex, if_pos hk, lookupTex]
      by_cases hk' : k = tid'
      · rw [if_pos hk', if_pos hk']
        rfl
      · rw [if_neg hk', if_neg hk']
    · simp only [updateTex, if_neg hk, lookupTex]
      by_cases hk' : k = tid'
      · rw [if_pos hk', if_pos hk']
      · rw [if_neg hk', if_neg hk']
        exact ih

/-- Looking up a freshly appended texture entry (auxiliary). -/
theorem lookupTex_append_self (texs : List (Nat × SDLFontTexture)) (tid : Nat)
    (t : SDLFontTexture) (hfresh : lookupTex texs tid = none) :
    lookupTex (texs ++ [(tid, t)]) tid = some t := by
  induction texs with
  | nil => simp [lookupTex]
  | cons p rest ih =>
    obtain ⟨k, t0⟩ := p
    by_cases hk : k = tid
    · simp only [lookupTex, if_pos hk] at hfresh
      exact Option.noConfusion hfresh
    · simp only [lookupTex, if_neg hk] at hfresh
      show lookupTex ((k, t0) :: (rest ++ [(tid, t)])) tid = some t
      simp only [lookupTex, if_neg hk]
      exact ih hfresh

/-- A successful broadcast renders every listener exactly once, in
subscription order (auxiliary). -/
theorem notifyGo_err_none_renderIds
    (render : SDLEnv → SDLFont → SDLFontTexture → RenderResult) (env : SDLEnv) (f : SDLFont) :
    ∀ (l : List Nat) (texs : List (Nat × SDLFontTexture)),
      (∀ tid ∈ l, (lookupTex texs tid).isSome = true) →
      (notifyGo render env f l texs).err = none →
      renderIds (notifyGo render env f l texs).evs = l := by
  intro l
  induction l with
  | nil =>
    intro texs _ _
    rfl
  | cons tid rest ih =>
    intro texs hwf herr
    have h0 : (lookupTex texs tid).isSome = true := hwf tid (List.mem_cons_self tid rest)
    cases hl : lookupTex texs tid with
    | none =>
      rw [hl] at h0
      simp at h0
    | some t =>
      cases hr : render env f t with
      | mk tex1 fired err1 =>
        cases err1 with
        | some e =>
          exfalso
          have : (notifyGo render env f (tid :: rest) texs).err = some e := by
            simp [notifyGo, hl, hr]
          rw [this] at herr
          exact Option.noConfusion herr
        | none =>
          have hwf2 : ∀ t2 ∈ rest, (lookupTex (updateTex texs tid tex1) t2).isSome = true := by
            intro t2 ht2
            rw [lookupTex_updateTex_isSome]
            exact hwf t2 (List.mem_cons_of_mem tid ht2)
          have herr2 : (notifyGo render env f rest (updateTex texs tid tex1)).err = none := by
            have heq : (notifyGo render env f (tid :: rest) texs).err
                = (notifyGo render env f rest (updateTex texs tid tex1)).err := by
              simp [notifyGo, hl, hr]
            rw [← heq]
            exact herr
          have hrec := ih (updateTex texs tid tex1) hwf2 herr2
          have hevs : (notifyGo render env f (tid :: rest) texs).evs
              = Ev.renderCall tid :: ((if fired then [Ev.texChanged tid] else [])
                  ++ (notifyGo render env f rest (updateTex texs tid tex1)).evs) := by
            simp [notifyGo, hl, hr]
          rw [hevs, renderIds_cons_render]
          cases fired <;>
            simp [renderIds_append, renderIds_cons_tex, renderIds_nil, hrec]

/-- No broadcast step emits a font-level changed event: textures fire only
texture-level events, so no recursion into the font event is possible
(auxiliary). -/
theorem notifyGo_no_fontChanged
    (render : SDLEnv → SDLFont → SDLFontTexture → RenderResult) (env : SDLEnv) (f : SDLFont) :
    ∀ (l : List Nat) (texs : List (Nat × SDLFontTexture)),
      Ev.fontChanged ∉ (notifyGo render env f l texs).evs := by
  intro l
  induction l with
  | nil =>
    intro texs
    simp [notifyGo]
  | cons tid rest ih =>
    intro texs
    cases hl : lookupTex texs tid with
    | none =>
      simpa [notifyGo, hl] using ih texs
    | some t =>
      cases hr : render env f t with
      | mk tex1 fired err1 =>
        cases err1 with
        | some e =>
          simp [notifyGo, hl, hr]
        | none =>
          simp [notifyGo, hl, hr]
          cases fired <;> simp [ih]

/-- Every id rendered during a broadcast is a subscribed listener
(auxiliary). -/
theorem notifyGo_renderIds_mem
    (render : SDLEnv → SDLFont → SDLFontTexture → RenderResult) (env : SDLEnv) (f : SDLFont) :
    ∀ (l : List Nat) (texs : List (Nat × SDLFontTexture)) (tid : Nat),
      tid ∈ renderIds (notifyGo render env f l texs).evs → tid ∈ l := by
  intro l
  induction l with
  | nil =>
    intro texs tid h
    simp [notifyGo, renderIds] at h
  | cons tid0 rest ih =>
    intro texs tid h
    cases hl : lookupTex texs tid0 with
    | none =>
      rw [show (notifyGo render env f (tid0 :: rest) texs)
          = notifyGo render env f rest texs by simp [notifyGo, hl]] at h
      exact List.mem_cons_of_mem tid0 (ih texs tid h)
    | some t =>
      cases hr : render env f t with
      | mk tex1 fired err1 =>
        cases err1 with
        | some e =>
          rw [show (notifyGo render env f (tid0 :: rest) texs).evs
              = Ev.renderCall tid0 :: (if fired then [Ev.texChanged tid0] else []) by
                simp [notifyGo, hl, hr]] at h
          rw [renderIds_cons_render] at h
          rcases List.mem_cons.mp h with heq | hin
          · exact heq ▸ List.mem_cons_self tid0 rest
          · exfalso
            cases fired <;> simp [renderIds] at hin
        | none =>
          rw [show (notifyGo render env f (tid0 :: rest) texs).evs
              = Ev.renderCall tid0 :: ((if fired then [Ev.texChanged tid0] else [])
                  ++ (notifyGo render env f rest (updateTex texs tid0 tex1)).evs) by
                simp [notifyGo, hl, hr]] at h
          rw [renderIds_cons_render] at h
          rcases List.mem_cons.mp h with heq | hin
          · rw [heq]
            exact List.mem_cons_self tid0 rest
          · have hin2 : tid ∈ renderIds
                (notifyGo render env f rest (updateTex texs tid0 tex1)).evs := by
              cases fired <;>
                simpa [renderIds_append, renderIds_cons_tex, renderIds] using hin
            exact List.mem_cons_of_mem tid0 (ih _ tid hin2)

/-- A successful font-level broadcast renders exactly the listeners, in
order, and emits exactly one font-level event (auxiliary). -/
theorem fireChangedEventSys_spec
    (render : SDLEnv → SDLFont → SDLFontTexture → RenderResult) (env : SDLEnv) (s1 : Sys) :
    ((∀ tid ∈ s1.font.listeners, (lookupTex s1.textures tid).isSome = true) →
      (fireChangedEventSys render env s1).err = none →
      renderIds (fireChangedEventSys render env s1).evs = s1.font.listeners)
    ∧ (fireChangedEventSys render env s1).evs.count Ev.fontChanged = 1 := by
  constructor
  · intro hwf herr
    have hevs : (fireChangedEventSys render env s1).evs
        = Ev.fontChanged :: (notifyGo render env s1.font s1.font.listeners s1.textures).evs :=
      rfl
    rw [hevs, renderIds_cons_font]
    exact notifyGo_err_none_renderIds render env s1.font s1.font.listeners s1.textures hwf herr
  · have hevs : (fireChangedEventSys render env s1).evs
        = Ev.fontChanged :: (notifyGo render env s1.font s1.font.listeners s1.textures).evs :=
      rfl
    rw [hevs, List.count_cons_self,
      List.count_eq_zero_of_not_mem
        (notifyGo_no_fontChanged render env s1.font s1.font.listeners s1.textures)]

/-- Every id rendered by a font-level broadcast is a subscribed listener
(auxiliary). -/
theorem fireChangedEventSys_renderIds_mem
    (render : SDLEnv → SDLFont → SDLFontTexture → RenderResult) (env : SDLEnv) (s1 : Sys)
    (tid : Nat) :
    tid ∈ renderIds (fireChangedEventSys render env s1).evs → tid ∈ s1.font.listeners := by
  intro h
  have hevs : (fireChangedEventSys render env s1).evs
      = Ev.fontChanged :: (notifyGo render env s1.font s1.font.listeners s1.textures).evs :=
    rfl
  rw [hevs, renderIds_cons_font] at h
  exact notifyGo_renderIds_mem render env s1.font s1.font.listeners s1.textures tid h

/-- C1 amended: a style change (both revisions) and a colour change
(revision A only) broadcast the font-changed event exactly once and, when
every re-render succeeds, invoke Render exactly once per attached texture
in subscription order, with no font-level event re-entered from inside a
Render; a point-size change (both revisions) and a colour change in
revision B fire no event at all, so they trigger no Render. -/
theorem C1_amended (env : SDLEnv) (s : Sys) (v p : Int) (c : Vec3) :
    ((∀ tid ∈ s.font.listeners, (lookupTex s.textures tid).isSome = true) →
      (RevA.SetStyleSys env s v).err = none →
      renderIds (RevA.SetStyleSys env s v).evs = s.font.listeners)
    ∧ (RevA.SetStyleSys env s v).evs.count Ev.fontChanged = 1
    ∧ ((∀ tid ∈ s.font.listeners, (lookupTex s.textures tid).isSome = true) →
      (RevA.SetColorSys env s c).err = none →
      renderIds (RevA.SetColorSys env s c).evs = s.font.listeners)
    ∧ (RevA.SetColorSys env s c).evs.count Ev.fontChanged = 1
    ∧ ((∀ tid ∈ s.font.listeners, (lookupTex s.textures tid).isSome = true) →
      (RevB.SetFontStyleSys env s v).err = none →
      renderIds (RevB.SetFontStyleSys env s v).evs = s.font.listeners)
    ∧ (RevB.SetFontStyleSys env s v).evs.count Ev.fontChanged = 1
    ∧ (RevA.SetSizeSys env s p).evs = []
    ∧ (RevB.SetPointSizeSys env s p).evs = []
    ∧ (RevB.SetFontColorSys env s c).evs = [] := by
  exact ⟨(fireChangedEventSys_spec RevA.Render env
      { s with font := { s.font with style := v } }).1,
    (fireChangedEventSys_spec RevA.Render env
      { s with font := { s.font with style := v } }).2,
    (fireChangedEventSys_spec RevA.Render env
      { s with font := RevA.setColorFont s.font c }).1,
    (fireChangedEventSys_spec RevA.Render env
      { s with font := RevA.setColorFont s.font c }).2,
    (fireChangedEventSys_spec RevB.Render env
      { s with font := { s.font with style := v } }).1,
    (fireChangedEventSys_spec RevB.Render env
      { s with font := { s.font with style := v } }).2,
    rfl, rfl, rfl⟩

/-- C1 as stated is false: on a system with one attached texture, a
point-size change fires no event in either revision and a colour change
fires none in revision B, so those trigger zero Render invocations rather
than one per texture. -/
theorem C1_counterexample :
    sysOne.font.listeners = [10]
    ∧ renderIds (RevA.SetSizeSys baseEnv sysOne 14).evs = []
    ∧ renderIds (RevB.SetPointSizeSys baseEnv sysOne 14).evs = []
    ∧ renderIds (RevB.SetFontColorSys baseEnv sysOne ⟨0, 0, 0⟩).evs = [] :=
  ⟨rfl, rfl, rfl, rfl⟩

/-- Witness for C1 amended: a loaded font with two attached empty-text
textures re-renders exactly textures 10 and 20, in that order, on a style
change. -/
theorem C1_amended_witness :
    (∀ tid ∈ sysTwo.font.listeners, (lookupTex sysTwo.textures tid).isSome = true)
    ∧ (RevA.SetStyleSys baseEnv sysTwo 5).err = none
    ∧ renderIds (RevA.SetStyleSys baseEnv sysTwo 5).evs = [10, 20] :=
  ⟨by decide, by decide,
    (C1_amended baseEnv sysTwo 5 0 ⟨0, 0, 0⟩).1 (by decide) (by decide)⟩

/-- SDLFont::Load never touches the listener list (auxiliary). -/
theorem font_load_listeners (env : SDLEnv) (g : SDLFont) :
    (SDLFont.Load env g).1.listeners = g.listeners := by
  unfold SDLFont.Load
  cases g.font with
  | some h => rfl
  | none =>
    cases env.openFont g.filename g.ptsize with
    | some h => rfl
    | none => rfl

/-- SDLFont::Unload never touches the listener list (auxiliary). -/
theorem font_unload_listeners (g : SDLFont) :
    (SDLFont.Unload g).listeners = g.listeners := by
  unfold SDLFont.Unload
  cases g.font with
  | some h => rfl
  | none => rfl

/-- SDLFont::SetSize never touches the listener list (auxiliary). -/
theorem font_setSize_listeners (env : SDLEnv) (f : SDLFont) (p : Int) :
    (SDLFont.SetSize env f p).1.listeners = f.listeners := by
  unfold SDLFont.SetSize
  split
  · rw [font_load_listeners, font_unload_listeners]
  · rfl

/-- Revision A's renderSurf never rebinds the texture's font (auxiliary). -/
theorem renderSurfA_fontRef (env : SDLEnv) (tex : SDLFontTexture) (surf : Surface) :
    (RevA.renderSurf env tex surf).tex.fontRef = tex.fontRef := by
  unfold RevA.renderSurf
  split
  · rfl
  · split
    · rfl
    · split
      · split <;> rfl
      · rfl

/-- Revision A's Render never rebinds the texture's font (auxiliary). -/
theorem renderA_fontRef (env : SDLEnv) (f : SDLFont) (tex : SDLFontTexture) :
    (RevA.Render env f tex).tex.fontRef = tex.fontRef := by
  have hpre : (RevA.prefill env.bigEndian tex).fontRef = tex.fontRef := by
    unfold RevA.prefill
    split <;> rfl
  have hbody : ∀ t : SDLFontTexture, (RevA.renderBody env t).tex.fontRef = t.fontRef := by
    intro t
    unfold RevA.renderBody
    split
    · split <;> rfl
    · split
      · rfl
      · exact renderSurfA_fontRef env t _
  unfold RevA.Render
  split
  · rfl
  · rw [hbody, hpre]

/-- Revision B's renderSurf never rebinds the texture's font (auxiliary). -/
theorem renderSurfB_fontRef (env : SDLEnv) (tex : SDLFontTexture) (surf : Surface) :
    (RevB.renderSurf env tex surf).tex.fontRef = tex.fontRef := by
  unfold RevB.renderSurf
  split
  · rfl
  · split
    · rfl
    · split
      · split <;> rfl
      · rfl

/-- Revision B's Render never rebinds the texture's font (auxiliary). -/
theorem renderB_fontRef (env : SDLEnv) (f : SDLFont) (tex : SDLFontTexture) :
    (RevB.Render env f tex).tex.fontRef = tex.fontRef := by
  unfold RevB.Render RevB.renderBody
  split
  · rfl
  · split
    · split <;> rfl
    · split
      · rfl
      · exact renderSurfB_fontRef env tex _

/-- C9: a texture subscribes to its font's changed event exactly once, at
construction (the listener list gains exactly its id, at the end);
destruction detaches it, after which a font-property broadcast renders it
no more; no other operation attaches or detaches anything; and no
operation ever rebinds a texture to a different font (Render preserves the
held font, and the constructor stores the creating font). -/
theorem C9_subscription_lifecycle (env : SDLEnv) (s : Sys) (f : SDLFont)
    (tex : SDLFontTexture) (h tid w hh : Nat) (v p : Int) (c : Vec3) (txt : String) :
    (s.font.listeners.count tid ≤ 1 →
      tid ∉ renderIds (RevA.SetStyleSys env (DestroyTexture s tid) v).evs)
    ∧ (s.font.listeners.count tid ≤ 1 →
      tid ∉ renderIds (RevB.SetFontStyleSys env (DestroyTexture s tid) v).evs)
    ∧ (lookupTex s.textures tid = none →
      (lookupTex (RevA.CreateFontTextureAuto env
          { s with font := { s.font with font := some h } } tid).1.textures tid).map
        SDLFontTexture.fontRef = some s.fontRef)
    ∧ (RevA.CreateFontTextureAuto env
        { s with font := { s.font with font := some h } } tid).1.font.listeners
      = s.font.listeners ++ [tid]
    ∧ (RevA.CreateFontTextureFixed env
        { s with font := { s.font with font := some h } } tid w hh).1.font.listeners
      = s.font.listeners ++ [tid]
    ∧ (RevB.CreateFontTextureAuto env
        { s with font := { s.font with font := some h } } tid).1.font.listeners
      = s.font.listeners ++ [tid]
    ∧ (RevB.CreateFontTextureFixed env
        { s with font := { s.font with font := some h } } tid w hh).1.font.listeners
      = s.font.listeners ++ [tid]
    ∧ (DestroyTexture s tid).font.listeners = s.font.listeners.erase tid
    ∧ (RevA.SetTextSys env s tid txt).1.font.listeners = s.font.listeners
    ∧ (RevB.SetTextSys env s tid txt).1.font.listeners = s.font.listeners
    ∧ (RevA.SetStyleSys env s v).sys.font.listeners = s.font.listeners
    ∧ (RevB.SetFontStyleSys env s v).sys.font.listeners = s.font.listeners
    ∧ (RevA.SetSizeSys env s p).sys.font.listeners = s.font.listeners
    ∧ (RevB.SetPointSizeSys env s p).sys.font.listeners = s.font.listeners
    ∧ (RevA.SetColorSys env s c).sys.font.listeners = s.font.listeners
    ∧ (RevB.SetFontColorSys env s c).sys.font.listeners = s.font.listeners
    ∧ (RevA.Render env f tex).tex.fontRef = tex.fontRef
    ∧ (RevB.Render env f tex).tex.fontRef = tex.fontRef := by
  refine ⟨?_, ?_, ?_, rfl, rfl, rfl, rfl, rfl, ?_, ?_, rfl, rfl,
    font_setSize_listeners env s.font p, font_setSize_listeners env s.font p,
    rfl, rfl, renderA_fontRef env f tex, renderB_fontRef env f tex⟩
  · intro hcount hmem
    have h1 : tid ∈ (s.font.listeners.erase tid) :=
      fireChangedEventSys_renderIds_mem RevA.Render env
        { DestroyTexture s tid with
            font := { (DestroyTexture s tid).font with style := v } } tid hmem
    have h2 : 0 < (s.font.listeners.erase tid).count tid := List.count_pos_iff.mpr h1
    rw [List.count_erase_self] at h2
    omega
  · intro hcount hmem
    have h1 : tid ∈ (s.font.listeners.erase tid) :=
      fireChangedEventSys_renderIds_mem RevB.Render env
        { DestroyTexture s tid with
            font := { (DestroyTexture s tid).font with style := v } } tid hmem
    have h2 : 0 < (s.font.listeners.erase tid).count tid := List.count_pos_iff.mpr h1
    rw [List.count_erase_self] at h2
    omega
  · intro hfresh
    rw [show (RevA.CreateFontTextureAuto env
          { s with font := { s.font with font := some h } } tid).1.textures
        = s.textures ++ [(tid, { RevA.newAutoTex s.fontRef with
            data := some [0, 0, 0, 0], width := 1, height := 1, depth := 32 })] from rfl]
    rw [lookupTex_append_self s.textures tid _ hfresh]
    rfl
  · show (setTextSys RevA.Render env s tid txt).1.font.listeners = s.font.listeners
    unfold setTextSys
    cases lookupTex s.textures tid with
    | none => rfl
    | some t => rfl
  · show (setTextSys RevB.Render env s tid txt).1.font.listeners = s.font.listeners
    unfold setTextSys
    cases lookupTex s.textures tid with
    | none => rfl
    | some t => rfl

/-- Witness for C9: destroying texture 10 detaches it, so a following
style change renders nothing for it; creating a fresh texture 11 on the
loaded font stores font 7 in it. -/
theorem C9_witness :
    sysOne.font.listeners.count 10 ≤ 1
    ∧ 10 ∉ renderIds (RevA.SetStyleSys baseEnv (DestroyTexture sysOne 10) 5).evs
    ∧ 10 ∉ renderIds (RevB.SetFontStyleSys baseEnv (DestroyTexture sysOne 10) 5).evs
    ∧ lookupTex sysOne.textures 11 = none
    ∧ (lookupTex (RevA.CreateFontTextureAuto baseEnv
        { sysOne with font := { sysOne.font with font := some 1 } } 11).1.textures 11).map
      SDLFontTexture.fontRef = some sysOne.fontRef := by
  refine ⟨by decide, ?_, ?_, by decide, ?_⟩
  · exact (C9_subscription_lifecycle baseEnv sysOne baseFont baseTex 1 10 0 0 5 12
      ⟨0, 0, 0⟩ "t").1 (by decide)
  · exact (C9_subscription_lifecycle baseEnv sysOne baseFont baseTex 1 10 0 0 5 12
      ⟨0, 0, 0⟩ "t").2.1 (by decide)
  · exact (C9_subscription_lifecycle baseEnv sysOne baseFont baseTex 1 11 0 0 5 12
      ⟨0, 0, 0⟩ "t").2.2.1 (by decide)

/-- C4 as stated is false for fixed-size textures in revision A: a failing
rasterization still leaves the buffer overwritten with the background
prefill (here all zeros), not the previous contents (9,9,9,9). -/
theorem C4_counterexample :
    (RevA.Render baseEnv baseFont
        { baseTex with
            text := "x", fixed_size := true, width := 1, height := 1, depth := 32
            data := some [9, 9, 9, 9] }).err = some errRenderA
    ∧ (RevA.Render baseEnv baseFont
        { baseTex with
            text := "x", fixed_size := true, width := 1, height := 1, depth := 32
            data := some [9, 9, 9, 9] }).tex.data = some [0, 0, 0, 0] := by
  have h0 : toUint8 (roundf ((0 : Rat) * 255)) = 0 := by
    norm_num [roundf, toUint8]
  have hfc : fillColor ⟨0, 0, 0, 0⟩ = 0 := by
    simp only [fillColor, h0]
    decide
  refine ⟨?_, ?_⟩ <;>
    simp [RevA.Render, RevA.prefill, RevA.renderBody, baseEnv, baseFont, baseTex, hfc,
      pixelBytes]

end OESDLFont
